import Mathlib

/-!
Verification of the transmission-replay grid walker (`src/C/main.c`).

The development shallowly embeds the C program:
* `clamp`, `update_player`, `player_position_t` — the grid simulator;
* `Window`, `filterStep`, `runFilter`, `flushEmit`, `flushApply`,
  `effectiveMoves`, `finalPos` — the lag-3 triple-discard move filter
  built around the `prev_moves[3]` array and `prev_idx` cursor of `main`;
* `next_move`, `mainLoop`, `runProgram` — the sentinel scanner
  (`move_iterator_t` / `next_move`) and the driver loop, parameterised by
  an abstract frame decoder standing for the external yahdlc collaborator.

C `char` values (move bytes, window slots) are modelled as `Int`; the C
code stores the sentinel `-1` for "no move", and a signed `char` move is
sign-extended into the `int` array `prev_moves`, so the stored value is
exactly the `Int` value of the byte as a signed char.
-/

set_option autoImplicit false

/-- The function `clamp` from `src/C/main.c` lines 85-93. -/
def clamp (value min max : Int) : Int :=
  if value < min then min
  else if value > max then max
  else value

/-- The struct `player_position_t` from `src/C/main.c` lines 79-82. -/
structure player_position_t where
  x : Int
  y : Int
deriving DecidableEq, Repr

/-- The function `update_player` from `src/C/main.c` lines 95-110: the switch on the
move byte, clamping the touched coordinate to `[0,4]`. -/
def update_player (player : player_position_t) (move : Int) : player_position_t :=
  if move = 1 then { player with y := clamp (player.y - 1) 0 4 }
  else if move = 2 then { player with y := clamp (player.y + 1) 0 4 }
  else if move = 3 then { player with x := clamp (player.x + 1) 0 4 }
  else if move = 4 then { player with x := clamp (player.x - 1) 0 4 }
  else player

/-- The `prev_moves[3]` array of `main` (`src/C/main.c` line 151): three
slots, each holding a move byte or the sentinel `-1` for "no move". -/
structure Window where
  a : Int
  b : Int
  c : Int
deriving DecidableEq, Repr

/-- The initial window: all three slots hold the sentinel `-1`. -/
def emptyWindow : Window := ⟨-1, -1, -1⟩

/-- Array read `prev_moves[i]`, `i` kept in `0..2` as the C code keeps
`prev_idx` via `% 3`. -/
def wget (w : Window) : Fin 3 → Int
  | ⟨0, _⟩ => w.a
  | ⟨1, _⟩ => w.b
  | ⟨2, _⟩ => w.c

/-- Array write `prev_moves[i] = m`. -/
def wset (w : Window) (i : Fin 3) (m : Int) : Window :=
  match i with
  | ⟨0, _⟩ => { w with a := m }
  | ⟨1, _⟩ => { w with b := m }
  | ⟨2, _⟩ => { w with c := m }

/-- One iteration of the move loop in `main` (`src/C/main.c` lines
161-177) as a pure step: read the slot at the cursor (`old_move`), emit
it if it is not the `-1` sentinel, overwrite the slot with the incoming
move, clear the whole window when the three slots are equal
(`three_in_a_row`), and advance the cursor by one mod 3.  Returns the new
window, the new cursor, and the move emitted this step, if any. -/
def filterStep (w : Window) (i : Fin 3) (m : Int) : Window × Fin 3 × Option Int :=
  let evicted := wget w i
  let emitted := if evicted = -1 then none else some evicted
  let w1 := wset w i m
  let w2 := if w1.a = w1.b ∧ w1.a = w1.c then emptyWindow else w1
  (w2, i + 1, emitted)

/-- The move loop of `main` run over a list of decoded moves, collecting
the emitted (effective) moves in order. -/
def runFilter : Window → Fin 3 → List Int → Window × Fin 3 × List Int
  | w, i, [] => (w, i, [])
  | w, i, m :: ms =>
    let s := filterStep w i m
    let r := runFilter s.1 s.2.1 ms
    (r.1, r.2.1, s.2.2.toList ++ r.2.2)

/-- The flush loop of `main` (`src/C/main.c` lines 184-191), collecting
the moves it applies: three iterations, each reading the slot at the
cursor, keeping it when it is not `-1`, and advancing the cursor. -/
def flushEmit (w : Window) (i : Fin 3) : List Int :=
  (if wget w i = -1 then [] else [wget w i]) ++
  (if wget w (i + 1) = -1 then [] else [wget w (i + 1)]) ++
  (if wget w (i + 2) = -1 then [] else [wget w (i + 2)])

/-- The flush loop of `main` (`src/C/main.c` lines 184-191) acting on the
player position, exactly as the C code does: three iterations of
`if (move != -1) update_player(&player, move)` with the cursor advancing. -/
def flushApply (w : Window) (i : Fin 3) (p : player_position_t) : player_position_t :=
  let p1 := if wget w i = -1 then p else update_player p (wget w i)
  let p2 := if wget w (i + 1) = -1 then p1 else update_player p1 (wget w (i + 1))
  if wget w (i + 2) = -1 then p2 else update_player p2 (wget w (i + 2))

/-- The full effective-move sequence the program derives from a decoded
move sequence: moves emitted during the main loop followed by the moves
emitted by the end-of-input flush. -/
def effectiveMoves (ms : List Int) : List Int :=
  let r := runFilter emptyWindow 0 ms
  r.2.2 ++ flushEmit r.1 r.2.1

/-- The move loop of `main` threading the player position exactly as the
C code does: each step applies the evicted move (when not `-1`) before
the window bookkeeping, and end of input runs the flush loop. -/
def applyLoop : Window → Fin 3 → player_position_t → List Int → player_position_t
  | w, i, p, [] => flushApply w i p
  | w, i, p, m :: ms =>
    let s := filterStep w i m
    applyLoop s.1 s.2.1 (match s.2.2 with
      | none => p
      | some mv => update_player p mv) ms

/-- The final position `main` computes from a decoded move sequence,
starting from a given position (the program starts at `(0, 4)`). -/
def finalPos (ms : List Int) (p : player_position_t) : player_position_t :=
  applyLoop emptyWindow 0 p ms

/-- Modelled from the spec: the reserved sentinel byte delimiting frames
(`YAHDLC_FLAG_SEQUENCE` from the yahdlc header, which is outside this
repository; the standard HDLC flag byte `0x7E`). -/
def FLAG_SEQUENCE : Int := 0x7E

/-- The candidate frame span handed to the decoder: the C code passes
`iter->data + iter->start` with length `iter->end + 1 - iter->start`,
i.e. the bytes from `start` to `end` inclusive of the sentinel. -/
def frameSpan (data : List Int) (start e : Nat) : List Int :=
  (data.drop start).take (e + 1 - start)

/-- Modelled from the spec: the external FrameDecoder collaborator
(`yahdlc_get_data`, outside this repository).  Given a candidate byte
span it returns a status (`ret`, negative on decode error), the
frame-type flag (`frame`, zero for a Data frame), and the decoded
payload bytes. -/
structure DecodeResult where
  ret : Int
  frame : Int
  payload : List Int

/-- Result of one `next_move` call: a fatal decode error (the C code
prints the negative status and calls `exit(1)`), exhaustion of the
buffer, or a yielded move byte together with the updated `(start, end)`
cursor of the iterator. -/
inductive ScanResult where
  | fatal (ret : Int)
  | done
  | move (m : Int) (s e : Nat)
deriving DecidableEq, Repr

/-- The function `next_move` from `src/C/main.c` lines 51-77, parameterised by the
abstract decoder: walk `end` forward; on the sentinel byte, decode the
span `[start, end]`; a negative status is fatal; on success set
`start = end + 1`, `end = end + 2`, skip Control frames
(`control->frame != 0`) and yield the first payload byte for Data
frames.  Return `done` when `end` leaves the buffer. -/
def next_move (decode : List Int → DecodeResult) (data : List Int) (start e : Nat) :
    ScanResult :=
  if h : e < data.length then
    if data.get ⟨e, h⟩ = FLAG_SEQUENCE then
      let r := decode (frameSpan data start e)
      if r.ret < 0 then .fatal r.ret
      else if r.frame ≠ 0 then next_move decode data (e + 1) (e + 2)
      else .move r.payload.headI (e + 1) (e + 2)
    else next_move decode data start (e + 1)
  else .done
termination_by data.length - e
decreasing_by all_goals omega

/-- A yielded move always advances the scan cursor: the returned `end`
is strictly beyond the old one and at most one past the buffer. -/
theorem next_move_move_bound (decode : List Int → DecodeResult) (data : List Int) :
    ∀ start e m s' e', next_move decode data start e = ScanResult.move m s' e' →
      e < e' ∧ e' ≤ data.length + 1 := by
  have key : ∀ k start e, data.length - e ≤ k →
      ∀ m s' e', next_move decode data start e = ScanResult.move m s' e' →
        e < e' ∧ e' ≤ data.length + 1 := by
    intro k
    induction k with
    | zero =>
      intro start e hk m s' e' heq
      rw [next_move] at heq
      rw [dif_neg (by omega)] at heq
      exact absurd heq (by simp)
    | succ k ih =>
      intro start e hk m s' e' heq
      rw [next_move] at heq
      by_cases h : e < data.length
      · rw [dif_pos h] at heq
        by_cases hf : data.get ⟨e, h⟩ = FLAG_SEQUENCE
        · rw [if_pos hf] at heq
          by_cases hr : (decode (frameSpan data start e)).ret < 0
          · simp only [if_pos hr] at heq
            exact absurd heq (by simp)
          · simp only [if_neg hr] at heq
            by_cases hc : (decode (frameSpan data start e)).frame ≠ 0
            · simp only [if_pos hc] at heq
              have := ih (e + 1) (e + 2) (by omega) m s' e' heq
              omega
            · simp only [if_neg hc] at heq
              have : e' = e + 2 := (ScanResult.move.inj heq).2.2.symm ▸ rfl
              cases heq
              omega
        · rw [if_neg hf] at heq
          have := ih start (e + 1) (by omega) m s' e' heq
          omega
      · rw [dif_neg h] at heq
        exact absurd heq (by simp)
  intro start e
  exact key (data.length - e) start e (Nat.le_refl _)

/-- The driver loop of `main` (`src/C/main.c` lines 155-194): repeatedly
pull from the iterator; a fatal decode error becomes process exit status
1 with no position reported; exhaustion flushes the window and reports
the final position; a yielded move runs one filter step, applying the
evicted move when present. -/
def mainLoop (decode : List Int → DecodeResult) (data : List Int) (start e : Nat)
    (w : Window) (i : Fin 3) (p : player_position_t) : Except Int player_position_t :=
  match hm : next_move decode data start e with
  | .fatal _ => Except.error 1
  | .done => Except.ok (flushApply w i p)
  | .move m s' e' =>
    let s := filterStep w i m
    mainLoop decode data s' e' s.1 s.2.1 (match s.2.2 with
      | none => p
      | some mv => update_player p mv)
termination_by data.length + 2 - e
decreasing_by
  have := next_move_move_bound decode data start e m s' e' hm
  omega

/-- The whole program on a given transmission buffer: iterator cursor
starts at `(start, end) = (0, 1)`, the window empty, the player at
`(0, 4)`.  `Except.error 1` models `exit(1)`; `Except.ok p` models the
single printed position line. -/
def runProgram (decode : List Int → DecodeResult) (data : List Int) :
    Except Int player_position_t :=
  mainLoop decode data 0 1 emptyWindow 0 ⟨0, 4⟩

/-! ### Claim theorems -/

/-- C9: applying an effective move updates the position as: byte 1 (Up)
sets `y = clamp (y-1) 0 4`; byte 2 (Down) sets `y = clamp (y+1) 0 4`;
byte 3 (Right) sets `x = clamp (x+1) 0 4`; byte 4 (Left) sets
`x = clamp (x-1) 0 4`; every other byte value leaves the position
unchanged. -/
theorem update_player_move_semantics (p : player_position_t) :
    update_player p 1 = { p with y := clamp (p.y - 1) 0 4 } ∧
    update_player p 2 = { p with y := clamp (p.y + 1) 0 4 } ∧
    update_player p 3 = { p with x := clamp (p.x + 1) 0 4 } ∧
    update_player p 4 = { p with x := clamp (p.x - 1) 0 4 } ∧
    ∀ m : Int, m ≠ 1 → m ≠ 2 → m ≠ 3 → m ≠ 4 → update_player p m = p := by
  refine ⟨?_, ?_, ?_, ?_, ?_⟩
  · norm_num [update_player]
  · norm_num [update_player]
  · norm_num [update_player]
  · norm_num [update_player]
  · intro m h1 h2 h3 h4
    simp [update_player, h1, h2, h3, h4]

/-- Witness for C9 at the concrete position `(2, 3)` and the unmapped
move byte `7`. -/
theorem update_player_move_semantics_witness :
    update_player ⟨2, 3⟩ 1 = { x := 2, y := clamp 2 0 4 } ∧
    update_player ⟨2, 3⟩ 7 = ⟨2, 3⟩ :=
  ⟨(update_player_move_semantics ⟨2, 3⟩).1,
   (update_player_move_semantics ⟨2, 3⟩).2.2.2.2 7
     (by decide) (by decide) (by decide) (by decide)⟩

/-- C10: `update_player` modifies at most one coordinate per call: for
move bytes 1 and 2 the x coordinate is unchanged, for move bytes 3 and 4
the y coordinate is unchanged, and for every other byte value both
coordinates are unchanged. -/
theorem update_player_single_axis (p : player_position_t) (m : Int) :
    ((m = 1 ∨ m = 2) → (update_player p m).x = p.x) ∧
    ((m = 3 ∨ m = 4) → (update_player p m).y = p.y) ∧
    (m ≠ 1 → m ≠ 2 → m ≠ 3 → m ≠ 4 → update_player p m = p) := by
  refine ⟨?_, ?_, ?_⟩
  · rintro (rfl | rfl) <;> norm_num [update_player]
  · rintro (rfl | rfl) <;> norm_num [update_player]
  · intro h1 h2 h3 h4
    simp [update_player, h1, h2, h3, h4]

/-- Witness for C10 at position `(2, 3)` with move bytes `1`, `3`
and `9`. -/
theorem update_player_single_axis_witness :
    (update_player ⟨2, 3⟩ 1).x = 2 ∧ (update_player ⟨2, 3⟩ 3).y = 3 ∧
    update_player ⟨2, 3⟩ 9 = ⟨2, 3⟩ :=
  ⟨(update_player_single_axis ⟨2, 3⟩ 1).1 (Or.inl rfl),
   (update_player_single_axis ⟨2, 3⟩ 3).2.1 (Or.inl rfl),
   (update_player_single_axis ⟨2, 3⟩ 9).2.2
     (by decide) (by decide) (by decide) (by decide)⟩

/-- C5: for every in-grid position `p` and every move byte `m`,
`update_player p m` has both coordinates within `[0, 4]`: the player
position stays inside the 5×5 grid. -/
theorem update_player_stays_in_grid (p : player_position_t) (m : Int)
    (hx0 : 0 ≤ p.x) (hx4 : p.x ≤ 4) (hy0 : 0 ≤ p.y) (hy4 : p.y ≤ 4) :
    0 ≤ (update_player p m).x ∧ (update_player p m).x ≤ 4 ∧
    0 ≤ (update_player p m).y ∧ (update_player p m).y ≤ 4 := by
  simp only [update_player, clamp]
  split_ifs <;> simp_all

/-- Witness for C5 at the program's start position `(0, 4)` with
move byte `2` (Down, which clamps at the bottom edge). -/
theorem update_player_stays_in_grid_witness :
    0 ≤ (update_player ⟨0, 4⟩ 2).x ∧ (update_player ⟨0, 4⟩ 2).x ≤ 4 ∧
    0 ≤ (update_player ⟨0, 4⟩ 2).y ∧ (update_player ⟨0, 4⟩ 2).y ≤ 4 :=
  update_player_stays_in_grid ⟨0, 4⟩ 2
    (by decide) (by decide) (by decide) (by decide)

/-- C3: starting from `(0, 4)`, the decoded move sequence
`[Right, Right, Up, Up, Up, Down]` (bytes `[3, 3, 1, 1, 1, 2]`) produces
the effective move sequence `[Right, Right, Down]` and the final
position `(2, 4)`, the trailing Down being clamped at the bottom edge. -/
theorem end_to_end_replay :
    effectiveMoves [3, 3, 1, 1, 1, 2] = [3, 3, 2] ∧
    finalPos [3, 3, 1, 1, 1, 2] ⟨0, 4⟩ = ⟨2, 4⟩ := by
  decide

/-- C1: for every move code `c` other than the `-1` sentinel (every
direction byte in particular), the triple-discard filter maps a run of
three consecutive `c`s to no effective move, a run of four to exactly
one effective `c` (the 4th), a run of five to exactly two (the 4th and
5th), and a run of six to none (both triples discarded). -/
theorem triple_discard_run_counts (c : Int) (hc : c ≠ -1) :
    effectiveMoves (List.replicate 3 c) = [] ∧
    effectiveMoves (List.replicate 4 c) = [c] ∧
    effectiveMoves (List.replicate 5 c) = [c, c] ∧
    effectiveMoves (List.replicate 6 c) = [] := by
  refine ⟨?_, ?_, ?_, ?_⟩ <;>
    simp [effectiveMoves, runFilter, filterStep, wget, wset, emptyWindow,
      flushEmit, List.replicate, hc]

/-- Witness for C1 at the Up byte `c = 1`. -/
theorem triple_discard_run_counts_witness :
    effectiveMoves (List.replicate 3 1) = [] ∧
    effectiveMoves (List.replicate 4 1) = [1] ∧
    effectiveMoves (List.replicate 5 1) = [1, 1] ∧
    effectiveMoves (List.replicate 6 1) = [] :=
  triple_discard_run_counts 1 (by decide)

/-- Counterexample to C2: on input `[Right, Up, Up, Up]` (bytes
`[3, 1, 1, 1]`), the fourth step inserts `1` into window `(3, 1, 1)` at
cursor 0, making all three slots hold the same non-empty code `1` (a
completed triple); that same step evicts and emits the `3`.  The claim
says the emitted move must be retroactively un-emitted and never applied
to the grid, but the program keeps it: `3` is in the effective sequence
and moves the player from `(0, 4)` to `(1, 4)`. -/
theorem completed_triple_evicted_move_still_applied :
    wset ⟨3, 1, 1⟩ 0 1 = ⟨1, 1, 1⟩ ∧ (1 : Int) ≠ -1 ∧
    filterStep ⟨3, 1, 1⟩ 0 1 = (emptyWindow, 1, some 3) ∧
    effectiveMoves [3, 1, 1, 1] = [3] ∧
    finalPos [3, 1, 1, 1] ⟨0, 4⟩ = ⟨1, 4⟩ := by
  decide

/-- C2 amended: whenever inserting an incoming move makes all three
window slots hold the same non-empty code (a completed triple), the
window is left entirely empty, while the move evicted in that same step
is still emitted exactly when it is present (it is not retroactively
un-emitted). -/
theorem completed_triple_clears_window_keeps_eviction
    (w : Window) (i : Fin 3) (m : Int)
    (h1 : (wset w i m).a = (wset w i m).b)
    (h2 : (wset w i m).a = (wset w i m).c)
    (h3 : (wset w i m).a ≠ -1) :
    (filterStep w i m).1 = emptyWindow ∧
    (filterStep w i m).2.2 =
      (if wget w i = -1 then none else some (wget w i)) := by
  constructor
  · simp only [filterStep]
    rw [if_pos ⟨h1, h2⟩]
  · simp [filterStep]

/-- Witness for the amended C2 at window `(3, 1, 1)`, cursor `0`,
incoming move `1`. -/
theorem completed_triple_clears_window_keeps_eviction_witness :
    (filterStep ⟨3, 1, 1⟩ 0 1).1 = emptyWindow ∧
    (filterStep ⟨3, 1, 1⟩ 0 1).2.2 =
      (if wget ⟨3, 1, 1⟩ 0 = -1 then none else some (wget ⟨3, 1, 1⟩ 0)) :=
  completed_triple_clears_window_keeps_eviction ⟨3, 1, 1⟩ 0 1
    (by decide) (by decide) (by decide)

/-- C4: every decoded payload byte is stored as-is in the window slot it
overwrites and participates in triple detection exactly through the
stored slots: the unrecognized code `5` completes a triple
(`[5, 5, 5]` yields no effective move), breaks a run of recognized
moves (`[1, 1, 5, 1]` passes all four moves through, while `[1, 1, 1]`
is discarded), and leaves the position unchanged when applied. -/
theorem raw_bytes_occupy_window (w : Window) (i : Fin 3) (m : Int)
    (p : player_position_t) :
    wget (wset w i m) i = m ∧
    (filterStep w i m).1 =
      (if (wset w i m).a = (wset w i m).b ∧ (wset w i m).a = (wset w i m).c
        then emptyWindow else wset w i m) ∧
    effectiveMoves [5, 5, 5] = [] ∧
    effectiveMoves [1, 1, 5, 1] = [1, 1, 5, 1] ∧
    effectiveMoves [1, 1, 1] = [] ∧
    update_player p 5 = p := by
  refine ⟨?_, rfl, by decide, by decide, by decide, ?_⟩
  · fin_cases i <;> rfl
  · norm_num [update_player]

/-- C8: the end-of-input flush performs exactly 3 eviction steps from
the cursor onward, emitting in oldest-first order exactly the slot
contents that are not the `-1` sentinel, and applying them to the player
in that order; no insertion or triple detection happens during the
flush. -/
theorem flush_three_steps (w : Window) (i : Fin 3) (p : player_position_t) :
    flushEmit w i =
      [wget w i, wget w (i + 1), wget w (i + 2)].filter (fun m => m ≠ -1) ∧
    flushApply w i p = (flushEmit w i).foldl update_player p ∧
    (flushEmit w i).length ≤ 3 := by
  by_cases e1 : wget w i = -1 <;> by_cases e2 : wget w (i + 1) = -1 <;>
    by_cases e3 : wget w (i + 2) = -1 <;>
    simp [flushEmit, flushApply, e1, e2, e3]

/-- C7: after a successful decode at a sentinel position (`ret ≥ 0`),
the scanner resumes with `start = end + 1` and `end = end + 2`, so the
single byte right after the sentinel is never examined; a Control frame
(`frame ≠ 0`) yields nothing and the scan just continues from that
cursor, while a Data frame (`frame = 0`) yields the first payload byte
as the move code together with that cursor. -/
theorem scanner_cursor_after_decode (decode : List Int → DecodeResult)
    (data : List Int) (start e : Nat) (h : e < data.length)
    (hf : data.get ⟨e, h⟩ = FLAG_SEQUENCE)
    (hr : 0 ≤ (decode (frameSpan data start e)).ret) :
    ((decode (frameSpan data start e)).frame = 0 →
      next_move decode data start e =
        ScanResult.move (decode (frameSpan data start e)).payload.headI
          (e + 1) (e + 2)) ∧
    ((decode (frameSpan data start e)).frame ≠ 0 →
      next_move decode data start e = next_move decode data (e + 1) (e + 2)) := by
  rw [next_move, dif_pos h, if_pos hf]
  constructor
  · intro hfr
    rw [if_neg (by omega), if_neg (by simp [hfr])]
  · intro hfr
    rw [if_neg (by omega), if_pos hfr]

/-- Witness for C7: buffer `[0, 126]` with the sentinel at index 1; a
Data-frame decoder with payload `[9]` yields `9` with cursor `(2, 3)`,
and a Control-frame decoder continues scanning from cursor `(2, 3)`. -/
theorem scanner_cursor_after_decode_witness :
    next_move (fun _ => ⟨0, 0, [9]⟩) [0, 126] 0 1 = ScanResult.move 9 2 3 ∧
    next_move (fun _ => ⟨0, 1, [9]⟩) [0, 126] 0 1 =
      next_move (fun _ => ⟨0, 1, [9]⟩) [0, 126] 2 3 :=
  ⟨(scanner_cursor_after_decode (fun _ => ⟨0, 0, [9]⟩) [0, 126] 0 1
      (by decide) (by decide) (by decide)).1 rfl,
   (scanner_cursor_after_decode (fun _ => ⟨0, 1, [9]⟩) [0, 126] 0 1
      (by decide) (by decide) (by decide)).2 (by decide)⟩

/-- C6: whenever the decoder reports a negative status for the candidate
span the scanner is about to decode, the whole run terminates with
abnormal exit status 1 and the final position is never produced, from
any driver state whatsoever. -/
theorem decode_error_aborts (decode : List Int → DecodeResult)
    (data : List Int) (start e : Nat) (w : Window) (i : Fin 3)
    (p : player_position_t) (ret : Int)
    (h : next_move decode data start e = ScanResult.fatal ret) :
    mainLoop decode data start e w i p = Except.error 1 ∧
    ∀ q : player_position_t, mainLoop decode data start e w i p ≠ Except.ok q := by
  have hmain : mainLoop decode data start e w i p = Except.error 1 := by
    rw [mainLoop]
    split <;> simp_all
  exact ⟨hmain, fun q => by rw [hmain]; simp⟩

/-- Witness for C6: buffer `[0, 126]` with the sentinel at index 1 and a
decoder that always fails with status `-1`; the program exits with
status 1 and no position is reported. -/
theorem decode_error_aborts_witness :
    mainLoop (fun _ => ⟨-1, 0, []⟩) [0, 126] 0 1 emptyWindow 0 ⟨0, 4⟩ =
      Except.error 1 ∧
    ∀ q : player_position_t,
      mainLoop (fun _ => ⟨-1, 0, []⟩) [0, 126] 0 1 emptyWindow 0 ⟨0, 4⟩ ≠
        Except.ok q :=
  decode_error_aborts (fun _ => ⟨-1, 0, []⟩) [0, 126] 0 1 emptyWindow 0
    ⟨0, 4⟩ (-1) (by rw [next_move]; norm_num [FLAG_SEQUENCE])
